import Mathlib

/-!
Shallow embedding of the core of the `ocpp-charger-simulator` repository:
the per-station Automatic Transaction Generator
(`src/charging-station/AutomaticTransactionGenerator.ts`) and the worker
broadcast-channel command dispatcher
(`src/charging-station/broadcast-channel/ChargingStationWorkerBroadcastChannel.ts`).

Pure functions of the source become Lean functions; the stateful ATG
controller becomes an explicit state type with a step function over an
action alphabet; OCPP requests executed by handlers are modelled as
oracles (functions from command and payload to an outcome) so that the
dispatcher's success, semantic-failure and thrown-failure paths are all
representable.  Time is modelled in milliseconds over `ℚ`.
-/

namespace OCPPSim

/-- Procedure names of the worker broadcast channel, the keys of the
dispatcher's static handler table.  The enumeration is that of
`BroadcastChannelProcedureName`; the handler table in the constructor of
`ChargingStationWorkerBroadcastChannel` has an entry for every one of
these names. -/
inductive BroadcastChannelProcedureName where
  | START_CHARGING_STATION
  | STOP_CHARGING_STATION
  | DELETE_CHARGING_STATIONS
  | OPEN_CONNECTION
  | CLOSE_CONNECTION
  | START_AUTOMATIC_TRANSACTION_GENERATOR
  | STOP_AUTOMATIC_TRANSACTION_GENERATOR
  | SET_SUPERVISION_URL
  | START_TRANSACTION
  | STOP_TRANSACTION
  | AUTHORIZE
  | BOOT_NOTIFICATION
  | STATUS_NOTIFICATION
  | HEARTBEAT
  | METER_VALUES
  | DATA_TRANSFER
  | DIAGNOSTICS_STATUS_NOTIFICATION
  | FIRMWARE_STATUS_NOTIFICATION
  deriving DecidableEq, Repr

/-- At runtime a command arriving on the channel is a string: either one
of the enumeration values above (for which the handler table has an
entry) or any other string (for which it has none). -/
inductive ChannelCommand where
  | known : BroadcastChannelProcedureName → ChannelCommand
  | unknown : String → ChannelCommand
  deriving DecidableEq, Repr

/-- Authorization status enumeration of OCPP 1.6 (`AuthorizationStatus`). -/
inductive AuthorizationStatus where
  | ACCEPTED
  | BLOCKED
  | EXPIRED
  | INVALID
  | CONCURRENT_TX
  deriving DecidableEq, Repr

/-- Envelope response verdict (`ResponseStatus`). -/
inductive ResponseStatus where
  | SUCCESS
  | FAILURE
  deriving DecidableEq, Repr

/-- Modelled from the spec: the OCPP 1.6 registration-status enumeration
value `RegistrationStatusEnumType.ACCEPTED`; the enumeration's source
file is not under `src/`, its value string comes from the spec's
scenarios (statuses are strings such as "Accepted" and "Rejected"). -/
def RegistrationStatusEnumType_ACCEPTED : String := "Accepted"

/-- Modelled from the spec: the OCPP 1.6 data-transfer-status enumeration
value `DataTransferStatus.ACCEPTED`; the enumeration's source file is not
under `src/`. -/
def DataTransferStatus_ACCEPTED : String := "Accepted"

/-- The `idTagInfo` object carried by start/stop/authorize responses. -/
structure IdTagInfo where
  status : AuthorizationStatus
  deriving DecidableEq, Repr

/-- A command response as seen by the dispatcher: the union
`EmptyObject | StartTransactionResponse | StopTransactionResponse |
AuthorizeResponse | BootNotificationResponse | HeartbeatResponse |
DataTransferResponse`, modelled as one record of optional fields.  A
field that the wire object does not carry is `none`. -/
structure CommandResponse where
  idTagInfo : Option IdTagInfo
  status : Option String
  currentTime : Option String
  interval : Option Nat
  transactionId : Option Nat
  data : Option String
  deriving DecidableEq, Repr

/-- The all-absent command response, the JSON object `{}`. -/
def CommandResponse.empty : CommandResponse :=
  ⟨none, none, none, none, none, none⟩

/-- Rambda's `isEmpty` on a command response: the object has no own
fields. -/
def CommandResponse.isEmptyResp (r : CommandResponse) : Bool :=
  r.idTagInfo.isNone && r.status.isNone && r.currentTime.isNone &&
    r.interval.isNone && r.transactionId.isNone && r.data.isNone

/-- Embedding of `commandResponseToResponseStatus` of
`ChargingStationWorkerBroadcastChannel`: the per-command verdict switch. -/
def commandResponseToResponseStatus (command : BroadcastChannelProcedureName)
    (commandResponse : CommandResponse) : ResponseStatus :=
  match command with
  | .START_TRANSACTION | .STOP_TRANSACTION | .AUTHORIZE =>
      if commandResponse.idTagInfo.map IdTagInfo.status =
          some AuthorizationStatus.ACCEPTED then
        ResponseStatus.SUCCESS
      else
        ResponseStatus.FAILURE
  | .BOOT_NOTIFICATION =>
      if commandResponse.status = some RegistrationStatusEnumType_ACCEPTED then
        ResponseStatus.SUCCESS
      else
        ResponseStatus.FAILURE
  | .DATA_TRANSFER =>
      if commandResponse.status = some DataTransferStatus_ACCEPTED then
        ResponseStatus.SUCCESS
      else
        ResponseStatus.FAILURE
  | .STATUS_NOTIFICATION | .METER_VALUES =>
      if commandResponse.isEmptyResp then
        ResponseStatus.SUCCESS
      else
        ResponseStatus.FAILURE
  | .HEARTBEAT =>
      if commandResponse.currentTime.isSome then
        ResponseStatus.SUCCESS
      else
        ResponseStatus.FAILURE
  | _ => ResponseStatus.FAILURE

/-- A broadcast-channel request payload
(`BroadcastChannelRequestPayload`): the targeting fields `hashIds`
(array) and legacy `hashId`, plus the procedure-specific fields the
handlers read.  Absent fields are `none`. -/
structure BroadcastChannelRequestPayload where
  hashIds : Option (List String)
  hashId : Option String
  connectorIds : Option (List Nat)
  connectorId : Option Nat
  transactionId : Option Nat
  url : Option String
  deleteConfiguration : Option Bool
  deriving DecidableEq, Repr

/-- Embedding of `cleanRequestPayload`: delete `hashId` and `hashIds`
always, and delete `connectorIds` unless the command is one of the two
ATG start/stop procedures. -/
def cleanRequestPayload (command : BroadcastChannelProcedureName)
    (requestPayload : BroadcastChannelRequestPayload) :
    BroadcastChannelRequestPayload :=
  let p := { requestPayload with hashId := none, hashIds := none }
  if command = BroadcastChannelProcedureName.START_AUTOMATIC_TRANSACTION_GENERATOR ∨
      command = BroadcastChannelProcedureName.STOP_AUTOMATIC_TRANSACTION_GENERATOR then
    p
  else
    { p with connectorIds := none }

/-- A broadcast-channel response payload
(`BroadcastChannelResponsePayload`): `hashId` and `status` always; on a
failure additionally `command`, `requestPayload`, and either
`commandResponse` (semantic failure) or the error triple (thrown
failure). -/
structure BroadcastChannelResponsePayload where
  hashId : Option String
  status : ResponseStatus
  command : Option ChannelCommand
  requestPayload : Option BroadcastChannelRequestPayload
  commandResponse : Option CommandResponse
  errorMessage : Option String
  errorStack : Option String
  errorDetails : Option String
  deriving DecidableEq, Repr

/-- An error object thrown by a command handler (an `OCPPError` raised
by the OCPP request service, or a `BaseError`): the fields the
dispatcher's catch branch reads. -/
structure ErrObj where
  message : String
  stack : Option String
  details : Option String
  deriving DecidableEq, Repr

/-- Outcome of awaiting a command handler: the promise either resolves
(with a command response, or with nothing for the `void` lifecycle
handlers) or rejects with an error. -/
inductive HandlerOutcome where
  | resolved : Option CommandResponse → HandlerOutcome
  | rejected : ErrObj → HandlerOutcome
  deriving DecidableEq, Repr

/-- The station and OCPP request service as the dispatcher's handlers
observe them: for each table command and (cleaned) payload, the outcome
of running that command's handler.  Universally quantifying over this
oracle covers the success, semantic-failure and thrown-failure paths. -/
def HandlerOracle : Type :=
  BroadcastChannelProcedureName → BroadcastChannelRequestPayload → HandlerOutcome

/-- The data of a message event on the channel, once validated: either a
request envelope `[uuid, command, payload]` or a response envelope
`[uuid, payload]` (responses loop back and are never re-handled). -/
inductive MessageData where
  | request : String → ChannelCommand → BroadcastChannelRequestPayload → MessageData
  | response : String → BroadcastChannelResponsePayload → MessageData
  deriving DecidableEq, Repr

/-- A raw message event: either malformed (rejected by
`validateMessageEvent`) or carrying validated data. -/
inductive MessageEvent where
  | invalid
  | valid : MessageData → MessageEvent
  deriving DecidableEq, Repr

/-- Embedding of `isResponse` of `WorkerBroadcastChannel`: the data has
the shape of a response envelope. -/
def isResponse : MessageData → Bool
  | .response _ _ => true
  | .request _ _ _ => false

/-- Commands the handler table of
`ChargingStationWorkerBroadcastChannel` has an entry for: every
enumeration value (the table is exhaustive over
`BroadcastChannelProcedureName`); a non-enumeration string has none. -/
def hasCommandHandler : ChannelCommand → Bool
  | .known _ => true
  | .unknown _ => false

/-- The string the template literal interpolates for a command: the raw
string for a non-enumeration command.  Only non-enumeration commands
reach the interpolation site of the unknown-command error. -/
def channelCommandString : ChannelCommand → String
  | .known _ => ""
  | .unknown s => s

/-- The message of the `BaseError` thrown by `commandHandler` for a
command absent from the handler table. -/
def unknownCommandMessage (command : ChannelCommand) : String :=
  "Unknown worker broadcast channel command: '" ++
    channelCommandString command ++ "'"

/-- What one delivery of a message event produces: the handler
invocations performed (command with the payload it was invoked on) and
the response envelopes published with `sendResponse`, in order. -/
structure DispatchResult where
  handlerCalls : List (BroadcastChannelProcedureName × BroadcastChannelRequestPayload)
  published : List (String × BroadcastChannelResponsePayload)
  deriving DecidableEq, Repr

/-- Embedding of `commandResponseToResponsePayload`: wrap a non-empty
command response as a success payload, or as a failure payload carrying
the command, the request payload and the command response. -/
def commandResponseToResponsePayload (stationHashId : String)
    (command : BroadcastChannelProcedureName)
    (requestPayload : BroadcastChannelRequestPayload)
    (commandResponse : CommandResponse) : BroadcastChannelResponsePayload :=
  let responseStatus := commandResponseToResponseStatus command commandResponse
  if responseStatus = ResponseStatus.SUCCESS then
    { hashId := some stationHashId
      status := responseStatus
      command := none
      requestPayload := none
      commandResponse := none
      errorMessage := none
      errorStack := none
      errorDetails := none }
  else
    { hashId := some stationHashId
      status := responseStatus
      command := some (ChannelCommand.known command)
      requestPayload := some requestPayload
      commandResponse := some commandResponse
      errorMessage := none
      errorStack := none
      errorDetails := none }

/-- The catch branch of `requestHandler`: a failure payload built from a
thrown error. -/
def thrownFailurePayload (stationHashId : String) (command : ChannelCommand)
    (requestPayload : BroadcastChannelRequestPayload) (error : ErrObj) :
    BroadcastChannelResponsePayload :=
  { hashId := some stationHashId
    status := ResponseStatus.FAILURE
    command := some command
    requestPayload := some requestPayload
    commandResponse := none
    errorMessage := some error.message
    errorStack := error.stack
    errorDetails := error.details }

/-- The plain-success response payload `{hashId, status: SUCCESS}` built
when a handler resolves with a null or empty command response (or when
the classifier returns SUCCESS). -/
def plainSuccessPayload (stationHashId : String) : BroadcastChannelResponsePayload :=
  { hashId := some stationHashId
    status := ResponseStatus.SUCCESS
    command := none
    requestPayload := none
    commandResponse := none
    errorMessage := none
    errorStack := none
    errorDetails := none }

/-- The accepted-request tail of `requestHandler`, from the legacy
`hashId` check on: drop legacy-targeted envelopes, then run
`commandHandler` — which throws a `BaseError` for a command with no
table entry and otherwise cleans the payload in place and invokes its
handler — build the response payload on the then/catch branches and
publish it once in the finally branch. -/
def requestHandlerDispatch (stationHashId : String) (oracle : HandlerOracle)
    (uuid : String) (command : ChannelCommand)
    (requestPayload : BroadcastChannelRequestPayload) : DispatchResult :=
  if requestPayload.hashId.isSome then
    ⟨[], []⟩
  else
    match command with
    | .known name =>
      let cleaned := cleanRequestPayload name requestPayload
      match oracle name cleaned with
      | .resolved r =>
        let responsePayload :=
          match r with
          | none => plainSuccessPayload stationHashId
          | some commandResponse =>
            if commandResponse.isEmptyResp then
              plainSuccessPayload stationHashId
            else
              commandResponseToResponsePayload stationHashId name cleaned
                commandResponse
        ⟨[(name, cleaned)], [(uuid, responsePayload)]⟩
      | .rejected error =>
        ⟨[(name, cleaned)],
          [(uuid, thrownFailurePayload stationHashId command cleaned error)]⟩
    | .unknown _ =>
      ⟨[],
        [(uuid,
          thrownFailurePayload stationHashId command requestPayload
            ⟨unknownCommandMessage command, none, none⟩)]⟩

/-- Embedding of `requestHandler` of
`ChargingStationWorkerBroadcastChannel`: validate the event, ignore
responses, apply the `hashIds` targeting filter, then hand over to the
dispatch tail. -/
def requestHandler (stationHashId : String) (oracle : HandlerOracle)
    (messageEvent : MessageEvent) : DispatchResult :=
  match messageEvent with
  | .invalid => ⟨[], []⟩
  | .valid d =>
    if isResponse d then ⟨[], []⟩
    else
      match d with
      | .response _ _ => ⟨[], []⟩
      | .request uuid command requestPayload =>
        match requestPayload.hashIds with
        | some ids =>
          if ids.contains stationHashId then
            requestHandlerDispatch stationHashId oracle uuid command requestPayload
          else
            ⟨[], []⟩
        | none =>
          requestHandlerDispatch stationHashId oracle uuid command requestPayload

/-- Stop reasons of OCPP 1.6 (`StopTransactionReason`); the ATG uses
`NONE`. -/
inductive StopTransactionReason where
  | NONE
  | LOCAL
  | DE_AUTHORIZED
  | EMERGENCY_STOP
  | EV_DISCONNECTED
  | HARD_RESET
  | OTHER
  | POWER_LOSS
  | REBOOT
  | REMOTE
  | SOFT_RESET
  | UNLOCK_COMMAND
  deriving DecidableEq, Repr

/-- An `AuthorizeResponse`: optional `idTagInfo`. -/
structure AuthorizeResponse where
  idTagInfo : Option IdTagInfo
  deriving DecidableEq, Repr

/-- A `StartTransactionResponse`: optional `idTagInfo` and the
transaction id the central system assigned. -/
structure StartTransactionResponse where
  idTagInfo : Option IdTagInfo
  transactionId : Option Nat
  deriving DecidableEq, Repr

/-- A `StopTransactionResponse`: optional `idTagInfo`. -/
structure StopTransactionResponse where
  idTagInfo : Option IdTagInfo
  deriving DecidableEq, Repr

/-- A connector's status as the ATG reads it. -/
structure ConnectorStatus where
  transactionStarted : Bool
  transactionId : Nat
  deriving DecidableEq, Repr

/-- One observable effect of an ATG transaction operation: the
performance-measurement bracket, the OCPP convenience calls, and the
warning log of the not-started stop path. -/
inductive AtgEffect where
  | beginMeasure : String → AtgEffect
  | endMeasure : String → AtgEffect
  | sendAuthorize : Nat → String → AtgEffect
  | sendStartTransaction : Nat → Option String → AtgEffect
  | sendStopTransaction : Nat → Nat → Option String → StopTransactionReason → AtgEffect
  | warnNotStartedStop : Nat → AtgEffect
  deriving DecidableEq, Repr

/-- The charging station as the ATG's transaction operations observe it:
the authorized-tag information and the responses the OCPP request
service returns to each convenience call. -/
structure AtgStation where
  hasAuthorizedTags : Bool
  getRandomIdTag : String
  requireAuthorize : Bool
  sendAuthorize : Nat → String → AuthorizeResponse
  sendStartTransactionWithTag : Nat → String → StartTransactionResponse
  sendStartTransactionNoTag : Nat → StartTransactionResponse
  getConnector : Nat → Option ConnectorStatus
  getEnergyActiveImportRegisterByTransactionId : Nat → Nat
  getTransactionIdTag : Nat → Option String
  sendStopTransaction : Nat → Nat → Option String → StopTransactionReason → StopTransactionResponse

/-- The sum result of `startTransaction`:
`StartTransactionResponse | AuthorizeResponse`. -/
inductive StartTxResult where
  | fromStart : StartTransactionResponse → StartTxResult
  | fromAuthorize : AuthorizeResponse → StartTxResult
  deriving DecidableEq, Repr

/-- Embedding of `AutomaticTransactionGenerator.startTransaction`:
bracketed by the measurement `StartTransaction with ATG`; if the station
has authorized tags, pick a random tag, authorize first when
`requireAuthorize`, and return the authorize response unchanged when it
is not accepted; otherwise start the transaction (with the tag, or with
none when the station has no tags).  Returns the effect trace in order
together with the returned response. -/
def startTransaction (cs : AtgStation) (connectorId : Nat) :
    List AtgEffect × StartTxResult :=
  let measureId := "StartTransaction with ATG"
  if cs.hasAuthorizedTags then
    let idTag := cs.getRandomIdTag
    if cs.requireAuthorize then
      let authorizeResponse := cs.sendAuthorize connectorId idTag
      if authorizeResponse.idTagInfo.map IdTagInfo.status =
          some AuthorizationStatus.ACCEPTED then
        let startResponse := cs.sendStartTransactionWithTag connectorId idTag
        ([AtgEffect.beginMeasure measureId,
          AtgEffect.sendAuthorize connectorId idTag,
          AtgEffect.sendStartTransaction connectorId (some idTag),
          AtgEffect.endMeasure measureId],
          StartTxResult.fromStart startResponse)
      else
        ([AtgEffect.beginMeasure measureId,
          AtgEffect.sendAuthorize connectorId idTag,
          AtgEffect.endMeasure measureId],
          StartTxResult.fromAuthorize authorizeResponse)
    else
      let startResponse := cs.sendStartTransactionWithTag connectorId idTag
      ([AtgEffect.beginMeasure measureId,
        AtgEffect.sendStartTransaction connectorId (some idTag),
        AtgEffect.endMeasure measureId],
        StartTxResult.fromStart startResponse)
  else
    let startResponse := cs.sendStartTransactionNoTag connectorId
    ([AtgEffect.beginMeasure measureId,
      AtgEffect.sendStartTransaction connectorId none,
      AtgEffect.endMeasure measureId],
      StartTxResult.fromStart startResponse)

/-- Embedding of `AutomaticTransactionGenerator.stopTransaction`:
bracketed by the measurement `StopTransaction with ATG`; when the
connector has a started transaction, send `StopTransaction` with that
transaction's id, meter value, id-tag and the given reason and return
its response; otherwise log a warning and return the never-assigned
(undefined) response. -/
def stopTransaction (cs : AtgStation) (connectorId : Nat)
    (reason : StopTransactionReason) :
    List AtgEffect × Option StopTransactionResponse :=
  let measureId := "StopTransaction with ATG"
  if ((cs.getConnector connectorId).map ConnectorStatus.transactionStarted) =
      some true then
    let transactionId :=
      ((cs.getConnector connectorId).map ConnectorStatus.transactionId).getD 0
    let stopResponse :=
      cs.sendStopTransaction transactionId
        (cs.getEnergyActiveImportRegisterByTransactionId transactionId)
        (cs.getTransactionIdTag transactionId) reason
    ([AtgEffect.beginMeasure measureId,
      AtgEffect.sendStopTransaction transactionId
        (cs.getEnergyActiveImportRegisterByTransactionId transactionId)
        (cs.getTransactionIdTag transactionId) reason,
      AtgEffect.endMeasure measureId],
      some stopResponse)
  else
    ([AtgEffect.beginMeasure measureId,
      AtgEffect.warnNotStartedStop connectorId,
      AtgEffect.endMeasure measureId],
      none)

/-- Modelled from the spec:
`Constants.CHARGING_STATION_ATG_DEFAULT_STOP_AFTER_HOURS = 0.25` h; the
constants source file is not under `src/`, the value comes from the
spec's contractual defaults. -/
def CHARGING_STATION_ATG_DEFAULT_STOP_AFTER_HOURS : ℚ := 1 / 4

/-- What the ATG controller reads from its charging station: the
connector ids of `station.connectors` and the template's
`stopAfterHours` (absent when the template gives none). -/
structure AtgConfig where
  connectors : List Nat
  stopAfterHours : Option ℚ
  deriving DecidableEq, Repr

/-- The ATG controller's state.  Dates are instants in milliseconds;
`none` models the not-yet-assigned (definite-assignment) fields before
the first `start()`.  `pending` is the queue of `startConnector` tasks
scheduled with `setImmediate` by `startConnectors` but not yet begun:
the flag assignment `connectorsStartStatus[connectorId] = true` at the
head of `startConnector` runs only when the deferred task does. -/
structure AtgState where
  started : Bool
  startDate : Option ℚ
  lastRunDate : Option ℚ
  stopDate : Option ℚ
  connectorsStartStatus : Nat → Bool
  pending : List Nat

/-- Embedding of `stopConnectors`: set `connectorsStartStatus[c] = false`
for every connector id `c > 0` of the station's connector table. -/
def stopConnectorsFlags (cfg : AtgConfig) (flags : Nat → Bool) : Nat → Bool :=
  fun c => if c ∈ cfg.connectors ∧ 0 < c then false else flags c

/-- The constructor's state: empty flag record, `stopConnectors()`,
`started = false`; no date assigned, nothing scheduled. -/
def atgInit (cfg : AtgConfig) : AtgState :=
  { started := false
    startDate := none
    lastRunDate := none
    stopDate := none
    connectorsStartStatus := stopConnectorsFlags cfg (fun _ => false)
    pending := [] }

/-- Embedding of `AutomaticTransactionGenerator.start` at instant `now`:
a no-op (with an error log) when already started; otherwise compute the
previous run duration when both `startDate` and `lastRunDate` are
assigned, set the dates, set
`stopDate = startDate + stopAfterHours·3600·1000 − previousRunDuration`
with the default `stopAfterHours` when the template gives none, schedule
one `startConnector` task per connector id `> 0`, and mark started. -/
def atgStart (cfg : AtgConfig) (now : ℚ) (s : AtgState) : AtgState :=
  if s.started then s
  else
    let previousRunDuration : ℚ :=
      match s.startDate, s.lastRunDate with
      | some sd, some lr => lr - sd
      | _, _ => 0
    { s with
      startDate := some now
      lastRunDate := some now
      stopDate := some (now +
        (cfg.stopAfterHours.getD CHARGING_STATION_ATG_DEFAULT_STOP_AFTER_HOURS) *
          3600 * 1000 - previousRunDuration)
      pending := s.pending ++ cfg.connectors.filter (fun c => decide (0 < c))
      started := true }

/-- Embedding of `AutomaticTransactionGenerator.stop`: a no-op (with an
error log) when not started; otherwise `stopConnectors()` then
`started = false`. -/
def atgStop (cfg : AtgConfig) (s : AtgState) : AtgState :=
  if s.started then
    { s with
      connectorsStartStatus := stopConnectorsFlags cfg s.connectorsStartStatus
      started := false }
  else s

/-- The atomic steps the ATG controller's state undergoes: the public
`start()`/`stop()` calls, the deferred flag assignment at the head of a
scheduled `startConnector` task, the loop-head exits of `startConnector`
(deadline hit which calls `stop()` then breaks; not-registered break;
station-unavailable which calls `stop()` then breaks; connector
unavailable break), and one completed loop iteration which assigns
`lastRunDate`.  Loop steps only fire while the connector's flag is
observed true. -/
inductive AtgAction where
  | startAction : ℚ → AtgAction
  | stopAction : AtgAction
  | connectorFlagSet : Nat → AtgAction
  | loopStopDateHit : Nat → ℚ → AtgAction
  | loopNotRegistered : Nat → AtgAction
  | loopStationUnavailable : Nat → AtgAction
  | loopConnectorUnavailable : Nat → AtgAction
  | loopIteration : Nat → ℚ → AtgAction

/-- The effect of one atomic step on the controller state. -/
def atgStep (cfg : AtgConfig) (a : AtgAction) (s : AtgState) : AtgState :=
  match a with
  | .startAction now => atgStart cfg now s
  | .stopAction => atgStop cfg s
  | .connectorFlagSet c =>
    if c ∈ s.pending then
      { s with
        pending := s.pending.erase c
        connectorsStartStatus := fun x => if x = c then true else s.connectorsStartStatus x }
    else s
  | .loopStopDateHit c now =>
    match s.stopDate with
    | some sd => if s.connectorsStartStatus c ∧ sd < now then atgStop cfg s else s
    | none => s
  | .loopNotRegistered _ => s
  | .loopStationUnavailable c =>
    if s.connectorsStartStatus c then atgStop cfg s else s
  | .loopConnectorUnavailable _ => s
  | .loopIteration c now =>
    if s.connectorsStartStatus c then { s with lastRunDate := some now } else s

/-- Run a sequence of atomic steps from a state. -/
def runAtg (cfg : AtgConfig) (acts : List AtgAction) (s : AtgState) : AtgState :=
  acts.foldl (fun st a => atgStep cfg a st) s

/-- Holds of an action sequence from a given state when every deferred
flag assignment (`connectorFlagSet`) executes while `started = true`,
i.e. no `stop()` slipped between a `start()` and the deferred
`startConnector` tasks it scheduled. -/
def noLateFlagSet (cfg : AtgConfig) : List AtgAction → AtgState → Bool
  | [], _ => true
  | a :: rest, s =>
    (match a with
     | AtgAction.connectorFlagSet _ => s.started
     | _ => true) &&
      noLateFlagSet cfg rest (atgStep cfg a s)

/-! Helper lemmas. -/

/-- A two-valued verdict `if` is SUCCESS exactly when its condition
holds. -/
lemma successVerdict_iff (P : Prop) [Decidable P] :
    (if P then ResponseStatus.SUCCESS else ResponseStatus.FAILURE) =
      ResponseStatus.SUCCESS ↔ P := by
  split <;> simp_all

/-- Rambda's emptiness test agrees with being the empty object. -/
lemma isEmptyResp_iff (r : CommandResponse) :
    r.isEmptyResp = true ↔ r = CommandResponse.empty := by
  cases r
  simp [CommandResponse.isEmptyResp, CommandResponse.empty,
    Option.isNone_iff_eq_none, and_assoc]

/-- Claim C4: for every command and every command response, the response
classifier returns exactly the verdict of the spec's table: for
START_TRANSACTION, STOP_TRANSACTION and AUTHORIZE, SUCCESS iff
`idTagInfo.status` is ACCEPTED; for BOOT_NOTIFICATION, SUCCESS iff
`status` is the registration-status ACCEPTED; for DATA_TRANSFER, SUCCESS
iff `status` is the data-transfer-status ACCEPTED; for
STATUS_NOTIFICATION and METER_VALUES, SUCCESS iff the response is empty;
for HEARTBEAT, SUCCESS iff the response has a `currentTime` field; for
every other command, FAILURE. -/
theorem claim_C4_response_classifier_table (r : CommandResponse) :
    (commandResponseToResponseStatus BroadcastChannelProcedureName.START_TRANSACTION r =
        ResponseStatus.SUCCESS ↔
      r.idTagInfo.map IdTagInfo.status = some AuthorizationStatus.ACCEPTED) ∧
    (commandResponseToResponseStatus BroadcastChannelProcedureName.STOP_TRANSACTION r =
        ResponseStatus.SUCCESS ↔
      r.idTagInfo.map IdTagInfo.status = some AuthorizationStatus.ACCEPTED) ∧
    (commandResponseToResponseStatus BroadcastChannelProcedureName.AUTHORIZE r =
        ResponseStatus.SUCCESS ↔
      r.idTagInfo.map IdTagInfo.status = some AuthorizationStatus.ACCEPTED) ∧
    (commandResponseToResponseStatus BroadcastChannelProcedureName.BOOT_NOTIFICATION r =
        ResponseStatus.SUCCESS ↔
      r.status = some RegistrationStatusEnumType_ACCEPTED) ∧
    (commandResponseToResponseStatus BroadcastChannelProcedureName.DATA_TRANSFER r =
        ResponseStatus.SUCCESS ↔
      r.status = some DataTransferStatus_ACCEPTED) ∧
    (commandResponseToResponseStatus BroadcastChannelProcedureName.STATUS_NOTIFICATION r =
        ResponseStatus.SUCCESS ↔ r = CommandResponse.empty) ∧
    (commandResponseToResponseStatus BroadcastChannelProcedureName.METER_VALUES r =
        ResponseStatus.SUCCESS ↔ r = CommandResponse.empty) ∧
    (commandResponseToResponseStatus BroadcastChannelProcedureName.HEARTBEAT r =
        ResponseStatus.SUCCESS ↔ r.currentTime.isSome = true) ∧
    commandResponseToResponseStatus BroadcastChannelProcedureName.START_CHARGING_STATION r =
      ResponseStatus.FAILURE ∧
    commandResponseToResponseStatus BroadcastChannelProcedureName.STOP_CHARGING_STATION r =
      ResponseStatus.FAILURE ∧
    commandResponseToResponseStatus BroadcastChannelProcedureName.DELETE_CHARGING_STATIONS r =
      ResponseStatus.FAILURE ∧
    commandResponseToResponseStatus BroadcastChannelProcedureName.OPEN_CONNECTION r =
      ResponseStatus.FAILURE ∧
    commandResponseToResponseStatus BroadcastChannelProcedureName.CLOSE_CONNECTION r =
      ResponseStatus.FAILURE ∧
    commandResponseToResponseStatus
        BroadcastChannelProcedureName.START_AUTOMATIC_TRANSACTION_GENERATOR r =
      ResponseStatus.FAILURE ∧
    commandResponseToResponseStatus
        BroadcastChannelProcedureName.STOP_AUTOMATIC_TRANSACTION_GENERATOR r =
      ResponseStatus.FAILURE ∧
    commandResponseToResponseStatus BroadcastChannelProcedureName.SET_SUPERVISION_URL r =
      ResponseStatus.FAILURE ∧
    commandResponseToResponseStatus
        BroadcastChannelProcedureName.DIAGNOSTICS_STATUS_NOTIFICATION r =
      ResponseStatus.FAILURE ∧
    commandResponseToResponseStatus
        BroadcastChannelProcedureName.FIRMWARE_STATUS_NOTIFICATION r =
      ResponseStatus.FAILURE := by
  refine ⟨successVerdict_iff _, successVerdict_iff _, successVerdict_iff _,
    successVerdict_iff _, successVerdict_iff _,
    (successVerdict_iff _).trans (isEmptyResp_iff r),
    (successVerdict_iff _).trans (isEmptyResp_iff r),
    successVerdict_iff _, rfl, rfl, rfl, rfl, rfl, rfl, rfl, rfl, rfl, rfl⟩

/-- Claim C9: before invoking any handler, the dispatcher removes
`hashId` and `hashIds` from the request payload for every command, and
removes `connectorIds` for every command except the two ATG start/stop
procedures; all other payload fields are left unchanged. -/
theorem claim_C9_clean_request_payload (command : BroadcastChannelProcedureName)
    (p : BroadcastChannelRequestPayload) :
    (cleanRequestPayload command p).hashId = none ∧
    (cleanRequestPayload command p).hashIds = none ∧
    (cleanRequestPayload command p).connectorIds =
      (if command = BroadcastChannelProcedureName.START_AUTOMATIC_TRANSACTION_GENERATOR ∨
          command = BroadcastChannelProcedureName.STOP_AUTOMATIC_TRANSACTION_GENERATOR then
        p.connectorIds
      else none) ∧
    (cleanRequestPayload command p).connectorId = p.connectorId ∧
    (cleanRequestPayload command p).transactionId = p.transactionId ∧
    (cleanRequestPayload command p).url = p.url ∧
    (cleanRequestPayload command p).deleteConfiguration = p.deleteConfiguration := by
  unfold cleanRequestPayload
  split <;> simp

/-! Concrete fixtures used by witness theorems. -/

/-- A request payload with every field absent. -/
def payloadEmptyFields : BroadcastChannelRequestPayload :=
  ⟨none, none, none, none, none, none, none⟩

/-- A request payload targeted (only) at the station of hashId `B`. -/
def payloadHashIdsB : BroadcastChannelRequestPayload :=
  ⟨some ["B"], none, none, none, none, none, none⟩

/-- A request payload carrying the deprecated legacy `hashId` field. -/
def payloadLegacyHashId : BroadcastChannelRequestPayload :=
  ⟨none, some "A", none, none, none, none, none⟩

/-- A request payload whose `hashIds` is present but the empty array. -/
def payloadHashIdsEmpty : BroadcastChannelRequestPayload :=
  ⟨some [], none, none, none, none, none, none⟩

/-- A station world where every handler resolves with no response. -/
def voidOracle : HandlerOracle := fun _ _ => HandlerOutcome.resolved none

/-- The response payload the dispatch tail ends up publishing for an
accepted request, by handler outcome. -/
def dispatchResponsePayload (stationHashId : String) (oracle : HandlerOracle)
    (command : ChannelCommand) (p : BroadcastChannelRequestPayload) :
    BroadcastChannelResponsePayload :=
  match command with
  | .known name =>
    let cleaned := cleanRequestPayload name p
    match oracle name cleaned with
    | .resolved r =>
      match r with
      | none => plainSuccessPayload stationHashId
      | some commandResponse =>
        if commandResponse.isEmptyResp then
          plainSuccessPayload stationHashId
        else
          commandResponseToResponsePayload stationHashId name cleaned commandResponse
    | .rejected error => thrownFailurePayload stationHashId command cleaned error
  | .unknown _ =>
    thrownFailurePayload stationHashId command p
      ⟨unknownCommandMessage command, none, none⟩

/-- Every accepted request's dispatch tail publishes exactly one
response tagged with the request's uuid, whatever the handler outcome. -/
lemma requestHandlerDispatch_published (stationHashId : String)
    (oracle : HandlerOracle) (uuid : String) (command : ChannelCommand)
    (p : BroadcastChannelRequestPayload) (hlegacy : p.hashId = none) :
    (requestHandlerDispatch stationHashId oracle uuid command p).published =
      [(uuid, dispatchResponsePayload stationHashId oracle command p)] := by
  unfold requestHandlerDispatch dispatchResponsePayload
  simp only [hlegacy, Option.isSome_none, Bool.false_eq_true, if_false]
  cases command with
  | known name =>
    cases hor : oracle name (cleanRequestPayload name p) with
    | resolved r => simp only [hor]
    | rejected e => simp only [hor]
  | unknown s => rfl

/-- Claim C1: for every request envelope that passes the dispatcher's
targeting checks (well-formed, not a response, `hashIds` absent or
containing this station's hashId, legacy `hashId` absent), the
dispatcher publishes exactly one response envelope tagged with the
request's uuid — on the success, semantic-failure and thrown-failure
paths alike, since the handler outcome oracle is universally
quantified. -/
theorem claim_C1_exactly_one_response (stationHashId : String)
    (oracle : HandlerOracle) (uuid : String) (command : ChannelCommand)
    (p : BroadcastChannelRequestPayload)
    (htarget : ∀ ids, p.hashIds = some ids → stationHashId ∈ ids)
    (hlegacy : p.hashId = none) :
    ∃ rp, (requestHandler stationHashId oracle
      (MessageEvent.valid (MessageData.request uuid command p))).published =
        [(uuid, rp)] := by
  refine ⟨dispatchResponsePayload stationHashId oracle command p, ?_⟩
  unfold requestHandler
  simp only [isResponse, Bool.false_eq_true, if_false]
  cases hids : p.hashIds with
  | none => exact requestHandlerDispatch_published stationHashId oracle uuid command p hlegacy
  | some ids =>
    have hmem : stationHashId ∈ ids := htarget ids hids
    simp only [List.elem_eq_mem, hmem, decide_True, if_true]
    exact requestHandlerDispatch_published stationHashId oracle uuid command p hlegacy

/-- Claim C1 witness: a concrete accepted heartbeat envelope yields one
published response tagged `u-1`. -/
theorem claim_C1_exactly_one_response_witness :
    ∃ rp, (requestHandler "A" voidOracle
      (MessageEvent.valid (MessageData.request "u-1"
        (ChannelCommand.known BroadcastChannelProcedureName.HEARTBEAT)
        payloadEmptyFields))).published = [("u-1", rp)] :=
  claim_C1_exactly_one_response "A" voidOracle "u-1"
    (ChannelCommand.known BroadcastChannelProcedureName.HEARTBEAT)
    payloadEmptyFields (fun ids h => by simp [payloadEmptyFields] at h) rfl

/-- Claim C5: a request whose `hashIds` is present, non-empty and does
not contain this station's hashId, and a request carrying the legacy
`hashId` field, each cause the dispatcher to invoke no handler and
publish no response. -/
theorem claim_C5_targeting_drops (stationHashId : String)
    (oracle : HandlerOracle) (uuid : String) (command : ChannelCommand)
    (p : BroadcastChannelRequestPayload) :
    (∀ ids, p.hashIds = some ids → ids ≠ [] → stationHashId ∉ ids →
      requestHandler stationHashId oracle
        (MessageEvent.valid (MessageData.request uuid command p)) = ⟨[], []⟩) ∧
    (p.hashId.isSome = true →
      requestHandler stationHashId oracle
        (MessageEvent.valid (MessageData.request uuid command p)) = ⟨[], []⟩) := by
  constructor
  · intro ids hids _ hnotmem
    unfold requestHandler
    simp [isResponse, hids, List.elem_eq_mem, hnotmem]
  · intro hlegacy
    unfold requestHandler
    simp only [isResponse, Bool.false_eq_true, if_false]
    have hdisp : requestHandlerDispatch stationHashId oracle uuid command p = ⟨[], []⟩ := by
      unfold requestHandlerDispatch
      simp [hlegacy]
    cases hids : p.hashIds with
    | none => exact hdisp
    | some ids =>
      by_cases hmem : stationHashId ∈ ids
      · simp only [List.elem_eq_mem, hmem, decide_True, if_true]
        exact hdisp
      · simp [List.elem_eq_mem, hmem]

/-- Claim C5 witness: station `A` drops both the envelope targeted at
`B` only and the legacy-`hashId` envelope, with no handler call and no
response. -/
theorem claim_C5_targeting_drops_witness :
    requestHandler "A" voidOracle
      (MessageEvent.valid (MessageData.request "u-2"
        (ChannelCommand.known BroadcastChannelProcedureName.HEARTBEAT)
        payloadHashIdsB)) = ⟨[], []⟩ ∧
    requestHandler "A" voidOracle
      (MessageEvent.valid (MessageData.request "u-3"
        (ChannelCommand.known BroadcastChannelProcedureName.HEARTBEAT)
        payloadLegacyHashId)) = ⟨[], []⟩ :=
  ⟨(claim_C5_targeting_drops "A" voidOracle "u-2"
      (ChannelCommand.known BroadcastChannelProcedureName.HEARTBEAT)
      payloadHashIdsB).1 ["B"] rfl (by decide) (by decide),
   (claim_C5_targeting_drops "A" voidOracle "u-3"
      (ChannelCommand.known BroadcastChannelProcedureName.HEARTBEAT)
      payloadLegacyHashId).2 rfl⟩

/-- Claim C10: a request whose `hashIds` is present but the empty array
is dropped — no handler invoked, no response published — although such
an envelope excludes no station. -/
theorem claim_C10_empty_hashIds_drops (stationHashId : String)
    (oracle : HandlerOracle) (uuid : String) (command : ChannelCommand)
    (p : BroadcastChannelRequestPayload)
    (h : p.hashIds = some ([] : List String)) :
    requestHandler stationHashId oracle
      (MessageEvent.valid (MessageData.request uuid command p)) = ⟨[], []⟩ := by
  unfold requestHandler
  simp [isResponse, h]

/-- Claim C10 witness: the empty-`hashIds` heartbeat envelope is dropped
by station `A`. -/
theorem claim_C10_empty_hashIds_drops_witness :
    requestHandler "A" voidOracle
      (MessageEvent.valid (MessageData.request "u-4"
        (ChannelCommand.known BroadcastChannelProcedureName.HEARTBEAT)
        payloadHashIdsEmpty)) = ⟨[], []⟩ :=
  claim_C10_empty_hashIds_drops "A" voidOracle "u-4"
    (ChannelCommand.known BroadcastChannelProcedureName.HEARTBEAT)
    payloadHashIdsEmpty rfl

/-- Claim C8: an accepted request whose command has no entry in the
handler table produces no handler invocation and exactly one FAILURE
response carrying the original uuid, the command, the request payload
and the unknown-command error message. -/
theorem claim_C8_unknown_command_failure (stationHashId : String)
    (oracle : HandlerOracle) (uuid s : String)
    (p : BroadcastChannelRequestPayload)
    (htarget : ∀ ids, p.hashIds = some ids → stationHashId ∈ ids)
    (hlegacy : p.hashId = none) :
    (requestHandler stationHashId oracle
      (MessageEvent.valid (MessageData.request uuid (ChannelCommand.unknown s) p))).handlerCalls =
        [] ∧
    (requestHandler stationHashId oracle
      (MessageEvent.valid (MessageData.request uuid (ChannelCommand.unknown s) p))).published =
      [(uuid,
        { hashId := some stationHashId
          status := ResponseStatus.FAILURE
          command := some (ChannelCommand.unknown s)
          requestPayload := some p
          commandResponse := none
          errorMessage :=
            some ("Unknown worker broadcast channel command: '" ++ s ++ "'")
          errorStack := none
          errorDetails := none })] := by
  have hdisp : requestHandlerDispatch stationHashId oracle uuid (ChannelCommand.unknown s) p =
      ⟨[],
        [(uuid,
          { hashId := some stationHashId
            status := ResponseStatus.FAILURE
            command := some (ChannelCommand.unknown s)
            requestPayload := some p
            commandResponse := none
            errorMessage :=
              some ("Unknown worker broadcast channel command: '" ++ s ++ "'")
            errorStack := none
            errorDetails := none })]⟩ := by
    unfold requestHandlerDispatch
    simp [hlegacy, thrownFailurePayload, unknownCommandMessage, channelCommandString]
  unfold requestHandler
  simp only [isResponse, Bool.false_eq_true, if_false]
  cases hids : p.hashIds with
  | none => rw [hdisp]; exact ⟨rfl, rfl⟩
  | some ids =>
    have hmem : stationHashId ∈ ids := htarget ids hids
    simp only [List.elem_eq_mem, hmem, decide_True, if_true]
    rw [hdisp]
    exact ⟨rfl, rfl⟩

/-- Claim C8 witness: the unknown command `Foo` sent to station `A`
yields no handler call and the single FAILURE response with the
unknown-command message. -/
theorem claim_C8_unknown_command_failure_witness :
    (requestHandler "A" voidOracle
      (MessageEvent.valid (MessageData.request "u-5"
        (ChannelCommand.unknown "Foo") payloadEmptyFields))).handlerCalls = [] ∧
    (requestHandler "A" voidOracle
      (MessageEvent.valid (MessageData.request "u-5"
        (ChannelCommand.unknown "Foo") payloadEmptyFields))).published =
      [("u-5",
        { hashId := some "A"
          status := ResponseStatus.FAILURE
          command := some (ChannelCommand.unknown "Foo")
          requestPayload := some payloadEmptyFields
          commandResponse := none
          errorMessage :=
            some ("Unknown worker broadcast channel command: '" ++ "Foo" ++ "'")
          errorStack := none
          errorDetails := none })] :=
  claim_C8_unknown_command_failure "A" voidOracle "u-5" "Foo" payloadEmptyFields
    (fun ids h => by simp [payloadEmptyFields] at h) rfl

/-- Claim C6: for every connector, `startTransaction` follows the spec's
decision tree — no authorized tags: one `sendStartTransaction` without
an id-tag, returning its response; tags with `requireAuthorize`:
`sendAuthorize` first, returning its response unchanged with no
`sendStartTransaction` when not accepted, and otherwise
`sendStartTransaction` with the chosen tag, returning its response; tags
without `requireAuthorize`: one `sendStartTransaction` with the chosen
tag.  The effect traces witness exactly which OCPP calls are issued. -/
theorem claim_C6_start_transaction_decision_tree (cs : AtgStation)
    (connectorId : Nat) :
    (cs.hasAuthorizedTags = false →
      startTransaction cs connectorId =
        ([AtgEffect.beginMeasure "StartTransaction with ATG",
          AtgEffect.sendStartTransaction connectorId none,
          AtgEffect.endMeasure "StartTransaction with ATG"],
          StartTxResult.fromStart (cs.sendStartTransactionNoTag connectorId))) ∧
    (cs.hasAuthorizedTags = true → cs.requireAuthorize = true →
      (cs.sendAuthorize connectorId cs.getRandomIdTag).idTagInfo.map IdTagInfo.status ≠
        some AuthorizationStatus.ACCEPTED →
      startTransaction cs connectorId =
        ([AtgEffect.beginMeasure "StartTransaction with ATG",
          AtgEffect.sendAuthorize connectorId cs.getRandomIdTag,
          AtgEffect.endMeasure "StartTransaction with ATG"],
          StartTxResult.fromAuthorize (cs.sendAuthorize connectorId cs.getRandomIdTag))) ∧
    (cs.hasAuthorizedTags = true → cs.requireAuthorize = true →
      (cs.sendAuthorize connectorId cs.getRandomIdTag).idTagInfo.map IdTagInfo.status =
        some AuthorizationStatus.ACCEPTED →
      startTransaction cs connectorId =
        ([AtgEffect.beginMeasure "StartTransaction with ATG",
          AtgEffect.sendAuthorize connectorId cs.getRandomIdTag,
          AtgEffect.sendStartTransaction connectorId (some cs.getRandomIdTag),
          AtgEffect.endMeasure "StartTransaction with ATG"],
          StartTxResult.fromStart
            (cs.sendStartTransactionWithTag connectorId cs.getRandomIdTag))) ∧
    (cs.hasAuthorizedTags = true → cs.requireAuthorize = false →
      startTransaction cs connectorId =
        ([AtgEffect.beginMeasure "StartTransaction with ATG",
          AtgEffect.sendStartTransaction connectorId (some cs.getRandomIdTag),
          AtgEffect.endMeasure "StartTransaction with ATG"],
          StartTxResult.fromStart
            (cs.sendStartTransactionWithTag connectorId cs.getRandomIdTag))) := by
  refine ⟨?_, ?_, ?_, ?_⟩
  · intro htags
    simp [startTransaction, htags]
  · intro htags hreq hrej
    simp only [startTransaction, htags, hreq, reduceIte]
    rw [if_neg hrej]
  · intro htags hreq hacc
    simp only [startTransaction, htags, hreq, reduceIte]
    rw [if_pos hacc]
  · intro htags hreq
    simp [startTransaction, htags, hreq]

/-- A station world with one authorized tag whose authorize call is
accepted on connector 1 and blocked elsewhere, a started transaction 7
on connector 1 and no transaction on connector 2. -/
def demoStation : AtgStation :=
  { hasAuthorizedTags := true
    getRandomIdTag := "TAG1"
    requireAuthorize := true
    sendAuthorize := fun connectorId _ =>
      if connectorId = 1 then ⟨some ⟨AuthorizationStatus.ACCEPTED⟩⟩
      else ⟨some ⟨AuthorizationStatus.BLOCKED⟩⟩
    sendStartTransactionWithTag := fun _ _ => ⟨some ⟨AuthorizationStatus.ACCEPTED⟩, some 7⟩
    sendStartTransactionNoTag := fun _ => ⟨some ⟨AuthorizationStatus.ACCEPTED⟩, some 7⟩
    getConnector := fun connectorId =>
      if connectorId = 1 then some ⟨true, 7⟩
      else if connectorId = 2 then some ⟨false, 0⟩
      else none
    getEnergyActiveImportRegisterByTransactionId := fun transactionId =>
      if transactionId = 7 then 4200 else 0
    getTransactionIdTag := fun transactionId =>
      if transactionId = 7 then some "TAG1" else none
    sendStopTransaction := fun _ _ _ _ => ⟨some ⟨AuthorizationStatus.ACCEPTED⟩⟩ }

/-- Claim C6 witness: on the demo station, connector 1's authorize is
accepted and the start call is issued with the tag; on connector 2 the
authorize is blocked and its response is returned with no start call. -/
theorem claim_C6_start_transaction_decision_tree_witness :
    startTransaction demoStation 1 =
      ([AtgEffect.beginMeasure "StartTransaction with ATG",
        AtgEffect.sendAuthorize 1 "TAG1",
        AtgEffect.sendStartTransaction 1 (some "TAG1"),
        AtgEffect.endMeasure "StartTransaction with ATG"],
        StartTxResult.fromStart ⟨some ⟨AuthorizationStatus.ACCEPTED⟩, some 7⟩) ∧
    startTransaction demoStation 2 =
      ([AtgEffect.beginMeasure "StartTransaction with ATG",
        AtgEffect.sendAuthorize 2 "TAG1",
        AtgEffect.endMeasure "StartTransaction with ATG"],
        StartTxResult.fromAuthorize ⟨some ⟨AuthorizationStatus.BLOCKED⟩⟩) :=
  ⟨(claim_C6_start_transaction_decision_tree demoStation 1).2.2.1 rfl rfl (by decide),
   (claim_C6_start_transaction_decision_tree demoStation 2).2.1 rfl rfl (by decide)⟩

/-- Claim C7: `stopTransaction` on a connector without a started
transaction issues no `sendStopTransaction`, logs the warning, still
closes the measurement bracket and returns the undefined response; on a
connector with a started transaction it sends `StopTransaction` with
that connector's transaction id, the station's energy register for that
transaction, the transaction's id-tag and the given reason, and returns
that response. -/
theorem claim_C7_stop_transaction (cs : AtgStation) (connectorId : Nat)
    (reason : StopTransactionReason) :
    (∀ conn, cs.getConnector connectorId = some conn →
      conn.transactionStarted = false →
      stopTransaction cs connectorId reason =
        ([AtgEffect.beginMeasure "StopTransaction with ATG",
          AtgEffect.warnNotStartedStop connectorId,
          AtgEffect.endMeasure "StopTransaction with ATG"], none)) ∧
    (∀ conn, cs.getConnector connectorId = some conn →
      conn.transactionStarted = true →
      stopTransaction cs connectorId reason =
        ([AtgEffect.beginMeasure "StopTransaction with ATG",
          AtgEffect.sendStopTransaction conn.transactionId
            (cs.getEnergyActiveImportRegisterByTransactionId conn.transactionId)
            (cs.getTransactionIdTag conn.transactionId) reason,
          AtgEffect.endMeasure "StopTransaction with ATG"],
          some (cs.sendStopTransaction conn.transactionId
            (cs.getEnergyActiveImportRegisterByTransactionId conn.transactionId)
            (cs.getTransactionIdTag conn.transactionId) reason))) := by
  constructor
  · intro conn hconn hnot
    simp [stopTransaction, hconn, hnot]
  · intro conn hconn hstarted
    simp [stopTransaction, hconn, hstarted]

/-- Claim C7 witness: on the demo station, stopping connector 2 (no
transaction) warns and returns nothing; stopping connector 1 sends
`StopTransaction` for transaction 7 with meter value 4200 and tag
`TAG1`. -/
theorem claim_C7_stop_transaction_witness :
    stopTransaction demoStation 2 StopTransactionReason.NONE =
      ([AtgEffect.beginMeasure "StopTransaction with ATG",
        AtgEffect.warnNotStartedStop 2,
        AtgEffect.endMeasure "StopTransaction with ATG"], none) ∧
    stopTransaction demoStation 1 StopTransactionReason.NONE =
      ([AtgEffect.beginMeasure "StopTransaction with ATG",
        AtgEffect.sendStopTransaction 7 4200 (some "TAG1") StopTransactionReason.NONE,
        AtgEffect.endMeasure "StopTransaction with ATG"],
        some ⟨some ⟨AuthorizationStatus.ACCEPTED⟩⟩) :=
  ⟨(claim_C7_stop_transaction demoStation 2 StopTransactionReason.NONE).1 ⟨false, 0⟩ rfl rfl,
   (claim_C7_stop_transaction demoStation 1 StopTransactionReason.NONE).2 ⟨true, 7⟩ rfl rfl⟩

/-- Claim C2: `start()` from a not-started state sets
`startDate = now` and
`stopDate = startDate + stopAfterHours·3600·1000 − previousRunDuration`,
where `stopAfterHours` defaults to the 0.25 h constant when the template
gives none, the previous run duration is `lastRunDate − startDate` of
the previous run when both are assigned, and zero on the first start —
so a restart preserves the remaining running budget. -/
theorem claim_C2_restart_preserves_budget (cfg : AtgConfig) (now : ℚ)
    (s : AtgState) (h : s.started = false) :
    (atgStart cfg now s).startDate = some now ∧
    (∀ sd lr, s.startDate = some sd → s.lastRunDate = some lr →
      (atgStart cfg now s).stopDate =
        some (now +
          (cfg.stopAfterHours.getD CHARGING_STATION_ATG_DEFAULT_STOP_AFTER_HOURS) *
            3600 * 1000 - (lr - sd))) ∧
    (s.startDate = none ∨ s.lastRunDate = none →
      (atgStart cfg now s).stopDate =
        some (now +
          (cfg.stopAfterHours.getD CHARGING_STATION_ATG_DEFAULT_STOP_AFTER_HOURS) *
            3600 * 1000)) := by
  refine ⟨?_, ?_, ?_⟩
  · simp [atgStart, h]
  · intro sd lr hsd hlr
    simp [atgStart, h, hsd, hlr]
  · intro hnone
    rcases hnone with hsd | hlr
    · cases hlr : s.lastRunDate <;> simp [atgStart, h, hsd, hlr]
    · cases hsd : s.startDate <;> simp [atgStart, h, hsd, hlr]

/-- A one-connector station template with no `stopAfterHours`. -/
def demoConfig : AtgConfig := ⟨[0, 1], none⟩

/-- An ATG state recording a previous run of 100000 ms that has been
stopped. -/
def demoStoppedState : AtgState :=
  { started := false
    startDate := some 0
    lastRunDate := some 100000
    stopDate := some 900000
    connectorsStartStatus := fun _ => false
    pending := [] }

/-- Claim C2 witness: restarting the demo state at `now = 1000000`
yields `stopDate = 1000000 + 0.25·3600·1000 − 100000 = 1800000`, and a
first start from the initial state yields `stopDate = now + 900000`. -/
theorem claim_C2_restart_preserves_budget_witness :
    (atgStart demoConfig 1000000 demoStoppedState).startDate = some 1000000 ∧
    (atgStart demoConfig 1000000 demoStoppedState).stopDate = some 1800000 ∧
    (atgStart demoConfig 1000000 (atgInit demoConfig)).stopDate = some 1900000 := by
  refine ⟨(claim_C2_restart_preserves_budget demoConfig 1000000 demoStoppedState rfl).1,
    ?_, ?_⟩
  · have h := (claim_C2_restart_preserves_budget demoConfig 1000000 demoStoppedState rfl).2.1
      0 100000 rfl rfl
    rw [h]
    norm_num [demoConfig, CHARGING_STATION_ATG_DEFAULT_STOP_AFTER_HOURS]
  · have h := (claim_C2_restart_preserves_budget demoConfig 1000000 (atgInit demoConfig) rfl).2.2
      (Or.inl rfl)
    rw [h]
    norm_num [demoConfig, CHARGING_STATION_ATG_DEFAULT_STOP_AFTER_HOURS]

/-- Claim C3 counterexample: from the initial one-connector state, the
sequence `start(); stop();` followed by the deferred flag assignment of
the `startConnector` task that `start()` had scheduled reaches a state
with `started = false` and `connectorsStartStatus[1] = true` — the
claimed invariant fails on a reachable state. -/
theorem claim_C3_counterexample :
    (runAtg demoConfig
      [AtgAction.startAction 0, AtgAction.stopAction, AtgAction.connectorFlagSet 1]
      (atgInit demoConfig)).started = false ∧
    (runAtg demoConfig
      [AtgAction.startAction 0, AtgAction.stopAction, AtgAction.connectorFlagSet 1]
      (atgInit demoConfig)).connectorsStartStatus 1 = true := by
  constructor <;> rfl

/-- The inductive invariant behind the amended claim C3: when not
started all flags are down, a raised flag belongs to a positive
connector of the station, and every scheduled task belongs to a positive
connector of the station. -/
def AtgInv (cfg : AtgConfig) (s : AtgState) : Prop :=
  (s.started = false → ∀ c, s.connectorsStartStatus c = false) ∧
  (∀ c, s.connectorsStartStatus c = true → c ∈ cfg.connectors ∧ 0 < c) ∧
  (∀ c, c ∈ s.pending → c ∈ cfg.connectors ∧ 0 < c)

/-- After `stopConnectors`, every flag is down provided raised flags
only ever belonged to positive station connectors. -/
lemma stopConnectorsFlags_false (cfg : AtgConfig) (flags : Nat → Bool)
    (h2 : ∀ c, flags c = true → c ∈ cfg.connectors ∧ 0 < c) :
    ∀ c, stopConnectorsFlags cfg flags c = false := by
  intro c
  unfold stopConnectorsFlags
  split
  · rfl
  · rename_i hnot
    cases hflag : flags c
    · rfl
    · exact absurd (h2 c hflag) hnot

/-- The constructor's state satisfies the invariant. -/
lemma atgInit_inv (cfg : AtgConfig) : AtgInv cfg (atgInit cfg) := by
  refine ⟨fun _ c => ?_, fun c hc => ?_, fun c hc => ?_⟩
  · exact stopConnectorsFlags_false cfg (fun _ => false) (fun c h => by cases h) c
  · have := stopConnectorsFlags_false cfg (fun _ => false) (fun c h => by cases h) c
    rw [show (atgInit cfg).connectorsStartStatus c =
      stopConnectorsFlags cfg (fun _ => false) c from rfl] at hc
    rw [this] at hc
    cases hc
  · cases hc

/-- `stop()` preserves the invariant. -/
lemma atgStop_inv (cfg : AtgConfig) (s : AtgState) (h : AtgInv cfg s) :
    AtgInv cfg (atgStop cfg s) := by
  obtain ⟨h1, h2, h3⟩ := h
  unfold atgStop
  split
  · refine ⟨fun _ c => ?_, fun c hc => ?_, fun c hc => h3 c hc⟩
    · exact stopConnectorsFlags_false cfg s.connectorsStartStatus h2 c
    · have hc2 : stopConnectorsFlags cfg s.connectorsStartStatus c = true := hc
      rw [stopConnectorsFlags_false cfg s.connectorsStartStatus h2 c] at hc2
      cases hc2
  · exact ⟨h1, h2, h3⟩

/-- `start()` preserves the invariant. -/
lemma atgStart_inv (cfg : AtgConfig) (now : ℚ) (s : AtgState)
    (h : AtgInv cfg s) : AtgInv cfg (atgStart cfg now s) := by
  obtain ⟨h1, h2, h3⟩ := h
  unfold atgStart
  split
  · exact ⟨h1, h2, h3⟩
  · refine ⟨fun hfalse _ => absurd hfalse (by simp), fun c hc => h2 c hc, fun c hc => ?_⟩
    rcases List.mem_append.mp hc with hmem | hmem
    · exact h3 c hmem
    · have hf := List.mem_filter.mp hmem
      exact ⟨hf.1, by simpa using hf.2⟩

/-- Every atomic step preserves the invariant, provided a deferred flag
assignment only executes while started. -/
lemma atgStep_inv (cfg : AtgConfig) (a : AtgAction) (s : AtgState)
    (h : AtgInv cfg s)
    (hflag : ∀ c, a = AtgAction.connectorFlagSet c → s.started = true) :
    AtgInv cfg (atgStep cfg a s) := by
  obtain ⟨h1, h2, h3⟩ := h
  cases a with
  | startAction now => exact atgStart_inv cfg now s ⟨h1, h2, h3⟩
  | stopAction => exact atgStop_inv cfg s ⟨h1, h2, h3⟩
  | connectorFlagSet c =>
    have hst : s.started = true := hflag c rfl
    show AtgInv cfg (if c ∈ s.pending then
      { s with
        pending := s.pending.erase c
        connectorsStartStatus := fun x => if x = c then true else s.connectorsStartStatus x }
      else s)
    split
    · rename_i hpend
      refine ⟨fun hfalse _ => ?_, fun x hx => ?_, fun x hx => ?_⟩
      · have hsf : s.started = false := hfalse
        rw [hst] at hsf
        exact absurd hsf (by decide)
      · by_cases hxc : x = c
        · subst hxc
          exact h3 x hpend
        · have hx2 : s.connectorsStartStatus x = true := by
            have hx3 : (if x = c then true else s.connectorsStartStatus x) = true := hx
            simpa [hxc] using hx3
          exact h2 x hx2
      · have hx2 : x ∈ s.pending.erase c := hx
        exact h3 x (List.mem_of_mem_erase hx2)
    · exact ⟨h1, h2, h3⟩
  | loopStopDateHit c now =>
    show AtgInv cfg (match s.stopDate with
      | some sd => if s.connectorsStartStatus c ∧ sd < now then atgStop cfg s else s
      | none => s)
    cases hsd : s.stopDate with
    | none => exact ⟨h1, h2, h3⟩
    | some sd =>
      dsimp only
      split
      · exact atgStop_inv cfg s ⟨h1, h2, h3⟩
      · exact ⟨h1, h2, h3⟩
  | loopNotRegistered c => exact ⟨h1, h2, h3⟩
  | loopStationUnavailable c =>
    show AtgInv cfg (if s.connectorsStartStatus c then atgStop cfg s else s)
    split
    · exact atgStop_inv cfg s ⟨h1, h2, h3⟩
    · exact ⟨h1, h2, h3⟩
  | loopConnectorUnavailable c => exact ⟨h1, h2, h3⟩
  | loopIteration c now =>
    show AtgInv cfg (if s.connectorsStartStatus c then
      { s with lastRunDate := some now } else s)
    split
    · exact ⟨fun hfalse x => h1 hfalse x, fun x hx => h2 x hx, fun x hx => h3 x hx⟩
    · exact ⟨h1, h2, h3⟩

/-- Running a well-scheduled action sequence preserves the invariant. -/
lemma runAtg_inv (cfg : AtgConfig) (acts : List AtgAction) :
    ∀ s, AtgInv cfg s → noLateFlagSet cfg acts s = true →
      AtgInv cfg (runAtg cfg acts s) := by
  induction acts with
  | nil => exact fun s h _ => h
  | cons a rest ih =>
    intro s h hn
    simp only [noLateFlagSet, Bool.and_eq_true] at hn
    obtain ⟨ha, hrest⟩ := hn
    have hflag : ∀ c, a = AtgAction.connectorFlagSet c → s.started = true := by
      intro c hc
      subst hc
      simpa using ha
    exact ih (atgStep cfg a s) (atgStep_inv cfg a s h hflag) hrest

/-- Claim C3 as amended: in every state reachable from the initial state
by a sequence of start, stop and loop steps in which each deferred flag
assignment runs while `started = true` (no `stop()` intervenes between a
`start()` and the `startConnector` tasks it scheduled),
`started = false` implies every connector flag is false.  The
counterexample shows the restriction is necessary. -/
theorem claim_C3_amended_invariant (cfg : AtgConfig) (acts : List AtgAction)
    (hsched : noLateFlagSet cfg acts (atgInit cfg) = true)
    (hstopped : (runAtg cfg acts (atgInit cfg)).started = false) :
    ∀ c, (runAtg cfg acts (atgInit cfg)).connectorsStartStatus c = false :=
  (runAtg_inv cfg acts (atgInit cfg) (atgInit_inv cfg) hsched).1 hstopped

/-- Claim C3 amended-claim witness: in the well-scheduled run
`start(); flag-set; stop()` the final state is stopped and connector 1's
flag is false. -/
theorem claim_C3_amended_invariant_witness :
    (runAtg demoConfig
      [AtgAction.startAction 0, AtgAction.connectorFlagSet 1, AtgAction.stopAction]
      (atgInit demoConfig)).connectorsStartStatus 1 = false :=
  claim_C3_amended_invariant demoConfig
    [AtgAction.startAction 0, AtgAction.connectorFlagSet 1, AtgAction.stopAction]
    (by decide) (by decide) 1

end OCPPSim
